import Mathlib

/-! Shallow embedding of the `colb` command-line front end (src/main.rs).

`colb` translates high-level build/test intents into ordered `colcon`,
`ninja` and `ctest` invocations.  The `ArgStack` accumulator of the source
is modelled as a `List String` threaded through the staged builder
functions; each builder stage of the source is a record consumed by the
function advancing to the next stage.  External processes are modelled by
a status oracle mapping each issued command to an optional exit code
(`none` standing for a process that terminated without a code). -/

/-- The `BuildType` enum of src/main.rs. -/
inductive BuildType where
  | Debug
  | Release
  | RelWithDebInfo
deriving DecidableEq

/-- String form of a build type, as matched inside `BuildType::apply`. -/
def BuildType.str : BuildType → String
  | .Debug => "Debug"
  | .Release => "Release"
  | .RelWithDebInfo => "RelWithDebInfo"

/-- `BuildType::apply`: pushes the cmake passthrough flag and then the
build-type definition onto the argument stack. -/
def BuildType.apply (t : BuildType) (cmd : List String) : List String :=
  cmd ++ ["--cmake-args", "-DCMAKE_BUILD_TYPE=" ++ t.str]

/-- `handler_str`: an event-handler toggle token, `name+` or `name-`. -/
def handler_str (name : String) (enabled : Bool) : String :=
  name ++ (if enabled then "+" else "-")

/-- `cmake_arg`: a `-Dname=value` cmake definition token. -/
def cmake_arg (name value : String) : String :=
  "-D" ++ name ++ "=" ++ value

/-- The `EventHandlers` record: four independent toggles. -/
structure EventHandlers where
  desktop_notification : Bool
  console_cohesion : Bool
  summary : Bool
  console_start_end : Bool
deriving DecidableEq

/-- `EventHandlers::default()`: summary and console start/end on, the
rest off. -/
def EventHandlers.default : EventHandlers :=
  ⟨false, false, true, true⟩

/-- `EventHandlers::silent()`: everything off. -/
def EventHandlers.silent : EventHandlers :=
  ⟨false, false, false, false⟩

/-- `EventHandlers::compile_logs_only()`: silent, plus console cohesion. -/
def EventHandlers.compile_logs_only : EventHandlers :=
  ⟨false, true, false, false⟩

/-- `EventHandlers::apply`: the `--event-handlers` flag followed by the
four toggle tokens, in source order. -/
def EventHandlers.apply (h : EventHandlers) (args : List String) : List String :=
  args ++ ["--event-handlers",
    handler_str "summary" h.summary,
    handler_str "console_start_end" h.console_start_end,
    handler_str "console_cohesion" h.console_cohesion,
    handler_str "desktop_notification" h.desktop_notification]

/-- The `BuildConfiguration` record (one persisted build profile). -/
structure BuildConfiguration where
  mixins : List String
  cmake_args : List String
  build_type : BuildType
  parallel_jobs : Option Nat
  event_handlers : EventHandlers
  build_tests : Bool
deriving DecidableEq

/-- `BuildConfiguration::DEFAULT_MIXINS`. -/
def BuildConfiguration.DEFAULT_MIXINS : List String :=
  ["compile-commands", "ninja", "mold", "ccache"]

/-- `BuildConfiguration::upstream()`: the dependency-build profile. -/
def BuildConfiguration.upstream : BuildConfiguration :=
  ⟨BuildConfiguration.DEFAULT_MIXINS, [], .Debug, some 8, EventHandlers.default, false⟩

/-- `BuildConfiguration::active()`: the active-package profile. -/
def BuildConfiguration.active : BuildConfiguration :=
  ⟨BuildConfiguration.DEFAULT_MIXINS, [], .Debug, some 8,
    EventHandlers.compile_logs_only, true⟩

/-- The persisted `Config`: the upstream and package profiles. -/
structure Config where
  upstream : BuildConfiguration
  package : BuildConfiguration
deriving DecidableEq

/-- `Config::default()`. -/
def Config.default : Config :=
  ⟨BuildConfiguration.upstream, BuildConfiguration.active⟩

/-- The `BuildOutput` record (symlink/merge install switches). -/
structure BuildOutput where
  symlink : Bool
  merge : Bool
deriving DecidableEq

/-- `BuildOutput::default()`. -/
def BuildOutput.default : BuildOutput := ⟨false, false⟩

/-- The `TestConfiguration` record. -/
structure TestConfiguration where
  package : String
  event_handlers : EventHandlers

/-- The `TestResultConfig` record. -/
structure TestResultConfig where
  package : String
  verbose : Bool
  all : Bool

/-- Stage 1 of the staged builder: log destination chosen, workspace
recorded. -/
structure ColconInvocation where
  args : List String
  workspace : String

/-- Stage 2 (build verb selected). -/
structure BuildVerb where
  args : List String
  workspace : String

/-- Stage 2 for the `test`/`test-result` verbs. -/
structure BasicVerb where
  args : List String
  workspace : String

/-- Stage 3 (build fully configured). -/
structure ConfiguredBuild where
  args : List String
  workspace : String

/-- The `What` intent discriminator. -/
inductive What where
  | DependenciesFor : String → What
  | ThisPackage : String → What

/-- `ColconInvocation::new`: log destination tokens. -/
def ColconInvocation.new (workspace : String) (log : Bool) : ColconInvocation :=
  ⟨["--log-base", if log then "log" else "/dev/null"], workspace⟩

/-- `ColconInvocation::build`: the build verb and its fixed output
locations, plus the optional symlink/merge install switches. -/
def ColconInvocation.build (self : ColconInvocation) (base_setup : BuildOutput) :
    BuildVerb :=
  let a := self.args ++ ["build", "--build-base", "build", "--install-base", "install"]
  let a := if base_setup.symlink then a ++ ["--symlink-install"] else a
  let a := if base_setup.merge then a ++ ["--merge-install"] else a
  ⟨a, self.workspace⟩

/-- `ColconInvocation::test`: the test verb, a directly appended
`--event-handlers` token, the handler application, the ctest passthrough
and the package selection. -/
def ColconInvocation.test (self : ColconInvocation) (config : TestConfiguration) :
    BasicVerb :=
  let a := self.args ++ ["test", "--event-handlers"]
  let a := config.event_handlers.apply a
  let a := a ++ ["--ctest-args", "--output-on-failure", "--packages-select", config.package]
  ⟨a, self.workspace⟩

/-- `ColconInvocation::test_result`. -/
def ColconInvocation.test_result (self : ColconInvocation) (config : TestResultConfig) :
    BasicVerb :=
  let a := self.args ++ ["test-result", "--test-result-base", "build/" ++ config.package]
  let a := if config.verbose then a ++ ["--verbose"] else a
  let a := if config.all then a ++ ["--all"] else a
  ⟨a, self.workspace⟩

/-- `BuildVerb::configure`: parallelism tokens (when a job count is set),
event-handler tokens, mixin tokens (when non-empty), the cmake
passthrough flag with the tests definition, the extra cmake arguments,
and finally the build-type application. -/
def BuildVerb.configure (self : BuildVerb) (config : BuildConfiguration) :
    ConfiguredBuild :=
  let a := self.args
  let a := match config.parallel_jobs with
    | some n => a ++ ["--executor", "parallel", "--parallel-workers", toString n]
    | none => a
  let a := config.event_handlers.apply a
  let a := if config.mixins.isEmpty then a else a ++ ["--mixin"] ++ config.mixins
  let a := a ++ ["--cmake-args",
    cmake_arg "BUILD_TESTING" (if config.build_tests then "ON" else "OFF")]
  let a := a ++ config.cmake_args
  let a := config.build_type.apply a
  ⟨a, self.workspace⟩

/-- An external command as assembled by the source: program name, working
directory (set for `colcon`, unset for `ninja`/`ctest`), arguments. -/
structure Cmd where
  program : String
  current_dir : Option String
  args : List String
deriving DecidableEq

/-- `ConfiguredBuild::run`: appends the package-selection tokens of the
intent after every configured token and issues the command. -/
def ConfiguredBuild.run (self : ConfiguredBuild) (what : What) : Cmd :=
  ⟨"colcon", some self.workspace,
    self.args ++ (match what with
      | .DependenciesFor package => ["--packages-up-to", package, "--packages-skip", package]
      | .ThisPackage package => ["--packages-select", package])⟩

/-- `BasicVerb::run`. -/
def BasicVerb.run (self : BasicVerb) : Cmd :=
  ⟨"colcon", some self.workspace, self.args⟩

/-- `ninja_build_target`: builds one named target inside the package's
build directory. -/
def ninja_build_target (workspace package target : String) : Cmd :=
  ⟨"ninja", none, ["-C", workspace ++ "/build/" ++ package, target]⟩

/-- `run_single_ctest`: runs one test by the fully anchored pattern
`^target$`. -/
def run_single_ctest (workspace package target : String) : Cmd :=
  ⟨"ctest", none,
    ["--test-dir", workspace ++ "/build/" ++ package, "--output-on-failure",
     "-R", "^" ++ target ++ "$"]⟩

/-- `exit_on_error`: `none` means control continues past the call,
`some c` means the program exits with code `c`; a status carrying no code
maps to the sentinel `-1`. -/
def exit_on_error (status : Option Int) : Option Int :=
  match status with
  | some code => if code = 0 then none else some code
  | none => some (-1)

/-- Fail-fast execution of a planned command sequence: issue commands in
order, stopping at the first whose status makes `exit_on_error` exit;
returns the issued commands and the whole command's exit code (0 when
every step succeeded). -/
def runSeq (statusOf : Cmd → Option Int) : List Cmd → List Cmd × Int
  | [] => ([], 0)
  | c :: rest =>
    match exit_on_error (statusOf c) with
    | some code => ([c], code)
    | none =>
      let r := runSeq statusOf rest
      (c :: r.1, r.2)

/-- The dependency-build invocation of the Build/Test branches of `main`:
upstream profile, `DependenciesFor` intent. -/
def depsBuildCmd (ws : String) (cfg : Config) (package : String) : Cmd :=
  (((ColconInvocation.new ws false).build BuildOutput.default).configure
    cfg.upstream).run (What.DependenciesFor package)

/-- The package-build invocation of the Build/Test branches of `main`:
active profile, `ThisPackage` intent. -/
def pkgBuildCmd (ws : String) (cfg : Config) (package : String) : Cmd :=
  (((ColconInvocation.new ws false).build BuildOutput.default).configure
    cfg.package).run (What.ThisPackage package)

/-- The whole-suite test invocation of the Test branch of `main`. -/
def colconTestCmd (ws package : String) : Cmd :=
  ((ColconInvocation.new ws true).test ⟨package, EventHandlers.silent⟩).run

/-- The result-reporting invocation of the Test branch of `main`. -/
def colconTestResultCmd (ws package : String) : Cmd :=
  ((ColconInvocation.new ws false).test_result ⟨package, true, true⟩).run

/-- The ordered invocation plan of the `Build` verb of `main`: the
dependency build unless skipped, then the package build. -/
def buildPlan (ws : String) (cfg : Config) (package : String)
    (skip_dependencies : Bool) : List Cmd :=
  (if !skip_dependencies then [depsBuildCmd ws cfg package] else []) ++
    [pkgBuildCmd ws cfg package]

/-- The `Build` verb executed against a status oracle. -/
def runBuildCommand (ws : String) (cfg : Config) (package : String)
    (skip_dependencies : Bool) (statusOf : Cmd → Option Int) : List Cmd × Int :=
  runSeq statusOf (buildPlan ws cfg package skip_dependencies)

/-- The ordered invocation plan of the `Test` verb of `main`, following
its three conditionals verbatim. -/
def testPlan (ws : String) (cfg : Config) (package : String)
    (test : Option String) (skip_rebuild rebuild_dependencies : Bool) : List Cmd :=
  (if rebuild_dependencies && !skip_rebuild then
      [depsBuildCmd ws cfg package] ++
        (if test.isSome then [pkgBuildCmd ws cfg package] else [])
    else []) ++
  (if !skip_rebuild then
      (match test with
       | some t => [ninja_build_target ws package t]
       | none => [pkgBuildCmd ws cfg package])
    else []) ++
  (match test with
   | some t => [run_single_ctest ws package t]
   | none => [colconTestCmd ws package, colconTestResultCmd ws package])

/-- The `Test` verb executed against a status oracle. -/
def runTestCommand (ws : String) (cfg : Config) (package : String)
    (test : Option String) (skip_rebuild rebuild_dependencies : Bool)
    (statusOf : Cmd → Option Int) : List Cmd × Int :=
  runSeq statusOf (testPlan ws cfg package test skip_rebuild rebuild_dependencies)

/-- `contains_marker`: filesystem access is modelled as a function from a
directory and a marker name to `Option Bool`; `none` models `try_exists`
returning an error, which the source skips over (treated as absent). -/
def contains_marker (fs : List String → String → Option Bool)
    (path : List String) (markers : List String) : Bool :=
  markers.any (fun m => fs path m == some true)

/-- `find_upwards`: directories are lists of path components, innermost
component first; `[]` is the filesystem root, whose parent is `None`. -/
def find_upwards (fs : List String → String → Option Bool)
    (markers : List String) : List String → Option (List String)
  | [] => if contains_marker fs [] markers then some [] else none
  | d :: rest =>
    if contains_marker fs (d :: rest) markers then some (d :: rest)
    else find_upwards fs markers rest

/-- Character-list check: does `needle` occur at the start of `hay`? -/
def isSubseqAt : List Char → List Char → Bool
  | [], _ => true
  | _ :: _, [] => false
  | a :: as, b :: bs => a == b && isSubseqAt as bs

/-- Character-list check: does `needle` occur anywhere inside `hay`? -/
def hasSubstring (needle : List Char) : List Char → Bool
  | [] => isSubseqAt needle []
  | a :: rest => isSubseqAt needle (a :: rest) || hasSubstring needle rest

/-- Modelled from the spec: the external test runner ("a test-runner
capable of executing one named test by exact, anchored name match",
section 6) selects tests whose name matches the pattern given after
`-R`.  For metacharacter-free patterns, a leading `^` anchors the match
at the start of the name, a trailing `$` anchors it at the end, and an
unanchored pattern matches any substring of the name. -/
def regexMatches (pattern name : String) : Bool :=
  let ps := pattern.toList
  let anchoredStart := ps.head? == some '^'
  let ps1 := if anchoredStart then ps.tail else ps
  let anchoredEnd := ps1.getLast? == some '$'
  let core := if anchoredEnd then ps1.dropLast else ps1
  let ns := name.toList
  if anchoredStart && anchoredEnd then ns == core
  else if anchoredStart then isSubseqAt core ns
  else if anchoredEnd then isSubseqAt core.reverse ns.reverse
  else hasSubstring core ns

/-- Modelled from the spec: the persisted-configuration document ("a
structured text document at the workspace root holding two named
profiles", section 6); the concrete file syntax is a declared non-goal,
so the document is modelled as a structured value. -/
inductive Toml where
  | str : String → Toml
  | int : Int → Toml
  | bool : Bool → Toml
  | arr : List Toml → Toml
  | table : List (String × Toml) → Toml

/-- First value bound to `key` in a table's key/value list. -/
def tomlLookup : List (String × Toml) → String → Option Toml
  | [], _ => none
  | (k, v) :: rest, key => if k == key then some v else tomlLookup rest key

/-- A required field: missing keys are a parse error. -/
def reqField (kvs : List (String × Toml)) (key : String) : Except String Toml :=
  match tomlLookup kvs key with
  | some v => Except.ok v
  | none => Except.error ("missing field " ++ key)

/-- Parse a string value. -/
def parseStr : Toml → Except String String
  | .str s => Except.ok s
  | _ => Except.error "expected string"

/-- Parse a boolean value. -/
def parseBoolV : Toml → Except String Bool
  | .bool b => Except.ok b
  | _ => Except.error "expected boolean"

/-- Parse a list of string values. -/
def parseStrItems : List Toml → Except String (List String)
  | [] => Except.ok []
  | v :: rest =>
    match parseStr v, parseStrItems rest with
    | Except.ok s, Except.ok ss => Except.ok (s :: ss)
    | Except.error e, _ => Except.error e
    | _, Except.error e => Except.error e

/-- Parse an array of strings. -/
def parseStrList : Toml → Except String (List String)
  | .arr xs => parseStrItems xs
  | _ => Except.error "expected array"

/-- Parse a `BuildType` from its serialized variant name. -/
def parseBuildTypeV : Toml → Except String BuildType
  | .str "Debug" => Except.ok BuildType.Debug
  | .str "Release" => Except.ok BuildType.Release
  | .str "RelWithDebInfo" => Except.ok BuildType.RelWithDebInfo
  | _ => Except.error "unknown variant for build_type"

/-- Parse a job count (an unsigned 32-bit integer in the source). -/
def parseJobsV : Toml → Except String Nat
  | .int n =>
    if 0 ≤ n ∧ n < 4294967296 then Except.ok n.toNat
    else Except.error "parallel_jobs out of range"
  | _ => Except.error "expected integer"

/-- Parse the four event-handler toggles. -/
def parseEventHandlersV : Toml → Except String EventHandlers
  | .table kvs => do
      let d ← parseBoolV (← reqField kvs "desktop_notification")
      let c ← parseBoolV (← reqField kvs "console_cohesion")
      let s ← parseBoolV (← reqField kvs "summary")
      let e ← parseBoolV (← reqField kvs "console_start_end")
      pure ⟨d, c, s, e⟩
  | _ => Except.error "expected table for event_handlers"

/-- Parse the optional `parallel_jobs` field: an absent key is `none`. -/
def parseJobsOpt (kvs : List (String × Toml)) : Except String (Option Nat) :=
  match tomlLookup kvs "parallel_jobs" with
  | none => Except.ok none
  | some v => do
      let n ← parseJobsV v
      pure (some n)

/-- Parse one build profile. -/
def parseBuildConfigurationV : Toml → Except String BuildConfiguration
  | .table kvs => do
      let mixins ← parseStrList (← reqField kvs "mixins")
      let cmakeArgs ← parseStrList (← reqField kvs "cmake_args")
      let bt ← parseBuildTypeV (← reqField kvs "build_type")
      let jobs ← parseJobsOpt kvs
      let eh ← parseEventHandlersV (← reqField kvs "event_handlers")
      let bts ← parseBoolV (← reqField kvs "build_tests")
      pure ⟨mixins, cmakeArgs, bt, jobs, eh, bts⟩
  | _ => Except.error "expected table for profile"

/-- Parse the whole persisted configuration (`toml::from_str::<Config>`). -/
def parseConfig : Toml → Except String Config
  | .table kvs => do
      let up ← parseBuildConfigurationV (← reqField kvs "upstream")
      let pk ← parseBuildConfigurationV (← reqField kvs "package")
      pure ⟨up, pk⟩
  | _ => Except.error "expected table"

/-- Serialize a `BuildType` to its variant name. -/
def serializeBuildType : BuildType → Toml
  | .Debug => Toml.str "Debug"
  | .Release => Toml.str "Release"
  | .RelWithDebInfo => Toml.str "RelWithDebInfo"

/-- Serialize the event handlers field by field. -/
def serializeEventHandlers (h : EventHandlers) : Toml :=
  Toml.table
    [("desktop_notification", Toml.bool h.desktop_notification),
     ("console_cohesion", Toml.bool h.console_cohesion),
     ("summary", Toml.bool h.summary),
     ("console_start_end", Toml.bool h.console_start_end)]

/-- Serialize one build profile field by field; an absent job count
serializes to no key. -/
def serializeBuildConfiguration (c : BuildConfiguration) : Toml :=
  Toml.table
    ([("mixins", Toml.arr (c.mixins.map Toml.str)),
      ("cmake_args", Toml.arr (c.cmake_args.map Toml.str)),
      ("build_type", serializeBuildType c.build_type)] ++
     (match c.parallel_jobs with
      | some n => [("parallel_jobs", Toml.int (n : Int))]
      | none => []) ++
     [("event_handlers", serializeEventHandlers c.event_handlers),
      ("build_tests", Toml.bool c.build_tests)])

/-- Serialize the whole configuration (`toml::to_string_pretty`). -/
def serializeConfig (c : Config) : Toml :=
  Toml.table
    [("upstream", serializeBuildConfiguration c.upstream),
     ("package", serializeBuildConfiguration c.package)]

/-- What the `Init` branch of `main` reported. -/
inductive InitReport where
  | initialized
  | conflict
  | ioError : String → InitReport
deriving DecidableEq

/-- The observable outcome of the `Init` branch: the configuration file's
contents afterwards, the process exit code, and the report printed. -/
structure InitOutcome where
  state : Option Toml
  exitCode : Int
  report : InitReport

/-- The possible behaviors of the file-creation step of `Init`:
success, failure to create the file (file untouched), or failure while
writing (the file holds whatever the aborted write left behind). -/
inductive IoResult where
  | ok
  | createFailed : String → IoResult
  | writeFailed : String → Option Toml → IoResult

/-- The `Init` branch of `main`: refuse to overwrite an existing file
unless forced; otherwise create and write the serialized default
configuration, reporting I/O failures distinctly. -/
def initStep (state : Option Toml) (force : Bool) (io : IoResult) : InitOutcome :=
  if state.isSome && !force then
    ⟨state, -1, InitReport.conflict⟩
  else
    match io with
    | IoResult.ok =>
        ⟨some (serializeConfig Config.default), 0, InitReport.initialized⟩
    | IoResult.createFailed m => ⟨state, -1, InitReport.ioError m⟩
    | IoResult.writeFailed m left => ⟨left, -1, InitReport.ioError m⟩

/-- The configuration-loading step of `main`: an absent file substitutes
the in-memory defaults without touching the disk; a present file is
parsed, and a parse failure is fatal with a message and exit code `-1`.
The result carries the configuration used and the disk state after the
step. -/
def configLoadStep (state : Option Toml) :
    Except (String × Int) (Config × Option Toml) :=
  match state with
  | none => Except.ok (Config.default, none)
  | some doc =>
    match parseConfig doc with
    | Except.ok c => Except.ok (c, some doc)
    | Except.error e => Except.error ("Could not parse config file: " ++ e, -1)

/-- A concrete model filesystem for the C6 witness: the workspace `/ws`
holds `package.xml`, probing `/ws/a` reports a filesystem error, and
every other probe reports absence. -/
def fsEx : List String → String → Option Bool := fun q m =>
  if q == ["ws"] && m == "package.xml" then some true
  else if q == ["a", "ws"] then none
  else some false

/-- The last element of a list extended by two elements. -/
theorem getLast?_append_pair {α : Type} (l : List α) (a b : α) :
    (l ++ [a, b]).getLast? = some b := by
  rw [← List.head?_reverse]
  simp [List.reverse_append]

/-- Squashing every filesystem error to "absent" does not change a marker
test: errors are already treated as absent. -/
theorem contains_marker_squash (fs : List String → String → Option Bool)
    (p M : List String) :
    contains_marker (fun q m => match fs q m with
      | none => some false
      | some b => some b) p M = contains_marker fs p M := by
  induction M with
  | nil => rfl
  | cons m ms ih =>
      simp only [contains_marker, List.any_cons] at ih ⊢
      rw [ih]
      cases h : fs p m with
      | none => simp [h]
      | some b => simp [h]

/-- A directory that itself holds a marker is returned immediately. -/
theorem find_upwards_here (fs : List String → String → Option Bool)
    (M p : List String) (h : contains_marker fs p M = true) :
    find_upwards fs M p = some p := by
  cases p with
  | nil => simp [find_upwards, h]
  | cons d rest => simp [find_upwards, h]

/-- C1: for every build configuration, `BuildVerb::configure` appends,
strictly in this order: the parallelism tokens (executor and worker
count, only when a job count is configured), the event-handler flag with
its four toggle tokens, the mixin flag followed by every mixin name (only
when the mixin list is non-empty), the cmake passthrough flag followed by
the generated enable/disable-tests definition, every extra passthrough
cmake argument, and finally the build-type application, whose build-type
definition is the last token of the stage. -/
theorem configure_token_order (bv : BuildVerb) (config : BuildConfiguration) :
    (bv.configure config).args =
      bv.args
        ++ (match config.parallel_jobs with
            | some n => ["--executor", "parallel", "--parallel-workers", toString n]
            | none => ([] : List String))
        ++ ["--event-handlers",
            handler_str "summary" config.event_handlers.summary,
            handler_str "console_start_end" config.event_handlers.console_start_end,
            handler_str "console_cohesion" config.event_handlers.console_cohesion,
            handler_str "desktop_notification" config.event_handlers.desktop_notification]
        ++ (if config.mixins.isEmpty then ([] : List String)
            else "--mixin" :: config.mixins)
        ++ ["--cmake-args",
            cmake_arg "BUILD_TESTING" (if config.build_tests then "ON" else "OFF")]
        ++ config.cmake_args
        ++ ["--cmake-args", "-DCMAKE_BUILD_TYPE=" ++ config.build_type.str] ∧
    (bv.configure config).args.getLast? =
      some ("-DCMAKE_BUILD_TYPE=" ++ config.build_type.str) := by
  have hmain : (bv.configure config).args =
      bv.args
        ++ (match config.parallel_jobs with
            | some n => ["--executor", "parallel", "--parallel-workers", toString n]
            | none => ([] : List String))
        ++ ["--event-handlers",
            handler_str "summary" config.event_handlers.summary,
            handler_str "console_start_end" config.event_handlers.console_start_end,
            handler_str "console_cohesion" config.event_handlers.console_cohesion,
            handler_str "desktop_notification" config.event_handlers.desktop_notification]
        ++ (if config.mixins.isEmpty then ([] : List String)
            else "--mixin" :: config.mixins)
        ++ ["--cmake-args",
            cmake_arg "BUILD_TESTING" (if config.build_tests then "ON" else "OFF")]
        ++ config.cmake_args
        ++ ["--cmake-args", "-DCMAKE_BUILD_TYPE=" ++ config.build_type.str] := by
    cases hp : config.parallel_jobs <;>
      by_cases hm : config.mixins.isEmpty <;>
        simp [BuildVerb.configure, EventHandlers.apply, BuildType.apply, hp, hm,
          List.append_assoc]
  refine ⟨hmain, ?_⟩
  rw [hmain]
  exact getLast?_append_pair _ _ _

/-- C4: `ConfiguredBuild::run` appends the package-selection tokens after
all build-configuration tokens, as the final tokens of the invocation:
for `DependenciesFor p` the include-up-to-`p` filter immediately followed
by the exclude-`p`-itself filter, and for `ThisPackage p` a single
select-`p` filter. -/
theorem run_appends_selection_last (cb : ConfiguredBuild) (package : String) :
    (cb.run (What.DependenciesFor package)).args =
      cb.args ++ ["--packages-up-to", package, "--packages-skip", package] ∧
    (cb.run (What.ThisPackage package)).args =
      cb.args ++ ["--packages-select", package] :=
  ⟨rfl, rfl⟩

/-- C5: the two default profiles agree on mixins, extra cmake arguments,
build type and job count, and differ only in their defaults: the upstream
(dependency) profile disables test compilation, desktop notification and
console cohesion (its handlers are the `default` preset), while the
active profile enables test compilation and the minimal
compile-logs-only console feedback. -/
theorem upstream_active_differ_only_in_defaults :
    BuildConfiguration.upstream.mixins = BuildConfiguration.active.mixins ∧
    BuildConfiguration.upstream.cmake_args = BuildConfiguration.active.cmake_args ∧
    BuildConfiguration.upstream.build_type = BuildConfiguration.active.build_type ∧
    BuildConfiguration.upstream.parallel_jobs = BuildConfiguration.active.parallel_jobs ∧
    BuildConfiguration.upstream.build_tests = false ∧
    BuildConfiguration.active.build_tests = true ∧
    BuildConfiguration.upstream.event_handlers = EventHandlers.default ∧
    BuildConfiguration.upstream.event_handlers.desktop_notification = false ∧
    BuildConfiguration.upstream.event_handlers.console_cohesion = false ∧
    BuildConfiguration.active.event_handlers = EventHandlers.compile_logs_only ∧
    BuildConfiguration.active.event_handlers.desktop_notification = false := by
  decide

/-- C10: the token sequence of the test verb contains the literal token
`--event-handlers` twice in immediate succession — once appended directly
by `ColconInvocation::test` and once by `EventHandlers::apply` — before
the four handler toggle tokens, and it ends with the `--packages-select`
filter followed by the package name as its final two tokens. -/
theorem test_verb_token_sequence (ws : String) (log : Bool) (tc : TestConfiguration) :
    ((ColconInvocation.new ws log).test tc).args =
      ["--log-base", if log then "log" else "/dev/null",
       "test", "--event-handlers", "--event-handlers",
       handler_str "summary" tc.event_handlers.summary,
       handler_str "console_start_end" tc.event_handlers.console_start_end,
       handler_str "console_cohesion" tc.event_handlers.console_cohesion,
       handler_str "desktop_notification" tc.event_handlers.desktop_notification,
       "--ctest-args", "--output-on-failure",
       "--packages-select", tc.package] := rfl

/-- C2: for the Build command with `skip_dependencies = false`, if the
dependency-build invocation reports a status other than success, the
package-build invocation is never issued and the command's exit code is
the dependency step's code, with the sentinel `-1` when the process
terminated without a code. -/
theorem build_dep_failure_stops_and_propagates
    (ws : String) (cfg : Config) (package : String) (statusOf : Cmd → Option Int)
    (h : statusOf (depsBuildCmd ws cfg package) ≠ some 0) :
    runBuildCommand ws cfg package false statusOf =
      ([depsBuildCmd ws cfg package],
       (statusOf (depsBuildCmd ws cfg package)).getD (-1)) ∧
    pkgBuildCmd ws cfg package ∉ (runBuildCommand ws cfg package false statusOf).1 := by
  have hplan : buildPlan ws cfg package false =
      [depsBuildCmd ws cfg package, pkgBuildCmd ws cfg package] := rfl
  have hmain : runBuildCommand ws cfg package false statusOf =
      ([depsBuildCmd ws cfg package],
       (statusOf (depsBuildCmd ws cfg package)).getD (-1)) := by
    unfold runBuildCommand
    rw [hplan]
    cases hs : statusOf (depsBuildCmd ws cfg package) with
    | none => simp [runSeq, exit_on_error, hs]
    | some code =>
      have hc : code ≠ 0 := by
        intro h0
        exact h (by rw [hs, h0])
      simp [runSeq, exit_on_error, hs, hc]
  refine ⟨hmain, ?_⟩
  rw [hmain]
  simp only [List.mem_singleton]
  intro he
  have h2 := congrArg (fun c : Cmd => c.args.reverse.tail.head?) he
  simp [pkgBuildCmd, depsBuildCmd, ConfiguredBuild.run, List.reverse_append] at h2

/-- Witness for C2 at a concrete input: dependency build fails with code
3, so only the dependency invocation is issued and the exit code is 3. -/
theorem build_dep_failure_stops_witness :
    runBuildCommand "ws" Config.default "foo" false (fun _ => some 3) =
      ([depsBuildCmd "ws" Config.default "foo"],
       ((some 3 : Option Int)).getD (-1)) ∧
    pkgBuildCmd "ws" Config.default "foo" ∉
      (runBuildCommand "ws" Config.default "foo" false (fun _ => some 3)).1 :=
  build_dep_failure_stops_and_propagates "ws" Config.default "foo"
    (fun _ => some 3) (by decide)

/-- C3: for the Test command with a single named test and
`skip_rebuild = false` (other flags at their defaults), the plan issues
exactly one rebuild invocation — the narrow `ninja` build whose only
target token is the test name, not the whole package — followed by the
single-test run invocation, whose selection pattern is the fully
anchored `^name$`; under the modelled test-runner semantics the anchored
pattern for `foo` selects `foo` but not `foo_extra`, while the
unanchored pattern would also select `foo_extra`. -/
theorem test_single_rebuild_and_exact_run
    (ws : String) (cfg : Config) (package t : String) (statusOf : Cmd → Option Int) :
    testPlan ws cfg package (some t) false false =
      [ninja_build_target ws package t, run_single_ctest ws package t] ∧
    (ninja_build_target ws package t).args = ["-C", ws ++ "/build/" ++ package, t] ∧
    (run_single_ctest ws package t).args =
      ["--test-dir", ws ++ "/build/" ++ package, "--output-on-failure",
       "-R", "^" ++ t ++ "$"] ∧
    runTestCommand ws cfg package (some t) false false statusOf =
      runSeq statusOf [ninja_build_target ws package t, run_single_ctest ws package t] ∧
    regexMatches ("^" ++ "foo" ++ "$") "foo" = true ∧
    regexMatches ("^" ++ "foo" ++ "$") "foo_extra" = false ∧
    regexMatches "foo" "foo_extra" = true :=
  ⟨rfl, rfl, rfl, rfl, by decide, by decide, by decide⟩

/-- C6: an upward search started at any descendant of the unique marked
ancestor `A` (no directory strictly between the start and `A` holds a
marker) returns exactly `A` — never a proper descendant of `A` and never
a different ancestor — and marker tests treat filesystem errors as the
marker being absent: squashing every error to "absent" leaves any marker
test unchanged. -/
theorem find_upwards_unique_marked_ancestor
    (fs : List String → String → Option Bool) (M A xs p0 : List String)
    (hA : contains_marker fs A M = true)
    (hdesc : ∀ ys ∈ xs.tails, ys ≠ [] → contains_marker fs (ys ++ A) M = false) :
    find_upwards fs M (xs ++ A) = some A ∧
    contains_marker (fun q m => match fs q m with
      | none => some false
      | some b => some b) p0 M = contains_marker fs p0 M := by
  have key : ∀ zs : List String,
      (∀ ys ∈ zs.tails, ys ≠ [] → contains_marker fs (ys ++ A) M = false) →
      find_upwards fs M (zs ++ A) = some A := by
    intro zs
    induction zs with
    | nil =>
      intro _
      simpa using find_upwards_here fs M A hA
    | cons x zs ih =>
      intro hd
      have hx : contains_marker fs (x :: (zs ++ A)) M = false := by
        have hmem : (x :: zs) ∈ (x :: zs).tails :=
          (List.mem_tails _ _).mpr (List.suffix_refl _)
        simpa using hd (x :: zs) hmem (by simp)
      have hrest : ∀ ys ∈ zs.tails, ys ≠ [] → contains_marker fs (ys ++ A) M = false := by
        intro ys hmem hne
        refine hd ys ?_ hne
        refine (List.mem_tails _ _).mpr ?_
        exact ((List.mem_tails _ _).mp hmem).trans (List.suffix_cons x zs)
      have hrec := ih hrest
      simpa [find_upwards, hx] using hrec
  exact ⟨key xs hdesc, contains_marker_squash fs p0 M⟩

/-- Witness for C6 at a concrete input: the search started two levels
below `/ws` (with an erroring probe in between) returns `/ws`, and the
erroring probe behaves as absence. -/
theorem find_upwards_unique_marked_ancestor_witness :
    find_upwards fsEx ["package.xml"] (["b", "a"] ++ ["ws"]) = some ["ws"] ∧
    contains_marker (fun q m => match fsEx q m with
      | none => some false
      | some b => some b) ["a", "ws"] ["package.xml"]
      = contains_marker fsEx ["a", "ws"] ["package.xml"] :=
  find_upwards_unique_marked_ancestor fsEx ["package.xml"] ["ws"] ["b", "a"]
    ["a", "ws"] (by decide) (by decide)

/-- C7: when `init` succeeds, loading the configuration afterwards yields
exactly the in-memory default profile pair — hence the same mixins, build
type, job count, event-handler flags and test-build flag for both the
upstream and the package profile — via the serialize/parse round trip of
the persisted document. -/
theorem init_then_load_yields_defaults (s : Option Toml) (force : Bool)
    (h : (initStep s force IoResult.ok).report = InitReport.initialized) :
    configLoadStep (initStep s force IoResult.ok).state =
      Except.ok (Config.default, some (serializeConfig Config.default)) := by
  by_cases hc : (s.isSome && !force) = true
  · simp [initStep, hc] at h
  · have hstate : (initStep s force IoResult.ok).state =
        some (serializeConfig Config.default) := by
      simp [initStep, hc]
    rw [hstate]
    rfl

/-- Witness for C7 at a concrete input: `init` on a workspace without a
configuration file, followed by `load`. -/
theorem init_then_load_yields_defaults_witness :
    configLoadStep (initStep none false IoResult.ok).state =
      Except.ok (Config.default, some (serializeConfig Config.default)) :=
  init_then_load_yields_defaults none false rfl

/-- C8: loading with no persisted file substitutes the in-memory default
profile pair, leaves the disk untouched and is no error, while a file
that fails to parse is fatal: the error carries a descriptive message and
the non-zero exit code `-1`. -/
theorem load_absent_defaults_and_parse_failure_fatal (doc : Toml) (e : String)
    (h : parseConfig doc = Except.error e) :
    configLoadStep none = Except.ok (Config.default, none) ∧
    configLoadStep (some doc) =
      Except.error ("Could not parse config file: " ++ e, -1) ∧
    ((-1 : Int) ≠ 0) :=
  ⟨rfl, by simp [configLoadStep, h], by decide⟩

/-- Witness for C8 at a concrete input: a document that is not a table
fails to parse and is rejected fatally. -/
theorem load_parse_failure_witness :
    configLoadStep none = Except.ok (Config.default, none) ∧
    configLoadStep (some (Toml.bool true)) =
      Except.error ("Could not parse config file: " ++ "expected table", -1) ∧
    ((-1 : Int) ≠ 0) :=
  load_absent_defaults_and_parse_failure_fatal (Toml.bool true) "expected table" rfl

/-- C9: `init` refuses to overwrite an existing configuration file unless
forced — reporting the conflict, exiting `-1` and leaving the file
unmodified; with no conflict it writes the serialized default profile
pair and exits 0; and an I/O failure (at creation or while writing) is
reported distinctly from the conflict, with exit code `-1`. -/
theorem init_conflict_success_and_io_error
    (d : Toml) (io : IoResult) (m : String) (left : Option Toml) :
    initStep (some d) false io = ⟨some d, -1, InitReport.conflict⟩ ∧
    initStep (some d) true IoResult.ok =
      ⟨some (serializeConfig Config.default), 0, InitReport.initialized⟩ ∧
    initStep none false IoResult.ok =
      ⟨some (serializeConfig Config.default), 0, InitReport.initialized⟩ ∧
    initStep none false (IoResult.createFailed m) =
      ⟨none, -1, InitReport.ioError m⟩ ∧
    initStep none false (IoResult.writeFailed m left) =
      ⟨left, -1, InitReport.ioError m⟩ ∧
    InitReport.ioError m ≠ InitReport.conflict ∧
    InitReport.ioError m ≠ InitReport.initialized :=
  ⟨rfl, rfl, rfl, rfl, rfl,
    fun hcontra => InitReport.noConfusion hcontra,
    fun hcontra => InitReport.noConfusion hcontra⟩
